import Mathlib

/-!
Verification of the ProDetect AML backend core.

This file gives a shallow embedding, in Lean 4, of the parts of the
ProDetect backend that the verified properties talk about:

* the transaction monitoring engine
  (services/core/transaction_monitoring.py: process_transaction,
  perform_aml_monitoring, apply_monitoring_rule, check_transaction_velocity,
  detect_structuring, detect_transaction_patterns, create_alert_from_transaction,
  log_audit_event);
* the standard CBN rule seed (services/core/rules_engine.py:
  create_standard_cbn_rules);
* the case workflow (services/core/case_management.py:
  create_case_from_alerts, close_case, determine_case_risk_level);
* the reporting service (services/core/reporting_service.py:
  file_report_with_authorities, generate_nfiu_export_data).

Modelling conventions:

* Python floats (monetary amounts, risk weights, risk scores) are modelled
  as rationals.  Every constant appearing in the source is an exact binary
  float (the structuring band bounds 5000000 * 0.8 and 5000000 * 0.99
  evaluate to exactly 4000000.0 and 4950000.0 in IEEE double precision),
  so the rational model computes the same comparisons as the source.
* Database reads are modelled as explicit arguments: the customer row, the
  active rule snapshot, the list of the amounts of the prior transactions
  of the customer in the trailing 24 hour window (used by both the velocity
  and the structuring query), and the optional non-zero 30 day average.
  The transaction being processed is synced only after monitoring, so it is
  not part of that window, matching the source.
* datetime values are modelled as natural numbers; the various string
  renderings of a datetime are modelled by toString, which is injective on
  the model and therefore preserves the only property the proofs use.
* uuid generation is modelled by explicit identifier arguments.
* Python dicts whose values are only ever True (risk_flags, and the key set
  of rule.conditions, which the source probes with the "in" operator) are
  modelled as lists of their keys; dict.get(k, False) becomes membership.
-/

set_option linter.unusedVariables false

namespace ProDetect

/-- ASCII lowercasing, modelling Python str.lower on the ASCII strings that
occur in this code base (rule codes, transaction methods). -/
def asciiLower (s : String) : String :=
  String.mk (s.data.map (fun c => if 'A' ≤ c ∧ c ≤ 'Z' then Char.ofNat (c.toNat + 32) else c))

/-- The customer row, restricted to the fields monitoring reads. -/
structure Customer where
  id : Nat
  risk_category : String
  pep_status : Bool
deriving Repr, DecidableEq

/-- The transaction row, restricted to the fields the claims mention.
The trailing block of fields is filled in by process_transaction from the
monitoring results; their defaults are the column defaults of the model. -/
structure Txn where
  id : Nat
  transaction_id : String
  customer_id : Nat
  amount : ℚ
  transaction_method : String
  beneficiary_country : Option String
  hour : Nat
  cross_border : Bool := false
  cash_transaction : Bool := false
  above_ctr_threshold : Bool := false
  risk_score : ℚ := 0
  risk_flags : List String := []
  is_suspicious : Bool := false
  alert_count : Nat := 0
  structuring_indicator : Bool := false
  velocity_flag : Bool := false
  amount_threshold_flag : Bool := false
  unusual_pattern_flag : Bool := false
deriving Repr, DecidableEq

/-- A monitoring rule.  conditions is the key set of the conditions dict
(the source only tests keys for membership); thresholds is the keyed
numeric map.  Lifecycle fields not read by monitoring are omitted. -/
structure Rule where
  id : Nat
  rule_code : String
  rule_name : String
  conditions : List String
  thresholds : List (String × ℚ)
  risk_weight : ℚ
  severity_level : String
deriving Repr, DecidableEq

/-- thresholds.get(key, default) on the keyed numeric map. -/
def threshold_get (t : List (String × ℚ)) (k : String) (d : ℚ) : ℚ :=
  match t.find? (fun p => p.1 == k) with
  | some p => p.2
  | none => d

/-- The result record built up by apply_monitoring_rule.  threshold_values
is bookkeeping for the alert payload and is not modelled. -/
structure RuleResult where
  triggered : Bool
  risk_contribution : ℚ
  alert_required : Bool
deriving Repr, DecidableEq

/-- check_transaction_velocity: count and sum of the transactions of the
customer in the last 24 hours against the fixed thresholds 50 and
10,000,000; returns the threshold_exceeded field.  The rule is not an
argument: the source reads no rule data here. -/
def check_transaction_velocity (recent : List ℚ) : Bool :=
  decide (50 ≤ recent.length) || decide ((10000000 : ℚ) ≤ recent.sum)

/-- The structuring band filter: amount BETWEEN 5000000*0.8 AND 5000000*0.99,
which is the closed interval [4000000, 4950000] (both products are exact in
IEEE double precision). -/
def in_structuring_band (a : ℚ) : Bool :=
  decide ((4000000 : ℚ) ≤ a) && decide (a ≤ (4950000 : ℚ))

/-- detect_structuring: at least 3 transactions of the customer in the last
24 hours inside the band, whose sum exceeds the 5,000,000 CTR threshold;
returns the likely_structuring field. -/
def detect_structuring (recent : List ℚ) : Bool :=
  let near := recent.filter in_structuring_band
  decide (3 ≤ near.length) && decide ((5000000 : ℚ) < near.sum)

/-- The amount_threshold branch of apply_monitoring_rule. -/
def amount_branch (t : Txn) (r : Rule) (res : RuleResult) : RuleResult :=
  if "amount_threshold" ∈ r.conditions then
    if threshold_get r.thresholds "amount" 1000000 ≤ t.amount then
      { res with triggered := true, risk_contribution := r.risk_weight * 20, alert_required := true }
    else res
  else res

/-- The velocity_check branch of apply_monitoring_rule. -/
def velocity_branch (r : Rule) (recent : List ℚ) (res : RuleResult) : RuleResult :=
  if "velocity_check" ∈ r.conditions then
    if check_transaction_velocity recent then
      { res with triggered := true, risk_contribution := r.risk_weight * 15, alert_required := true }
    else res
  else res

/-- The structuring_detection branch of apply_monitoring_rule. -/
def structuring_branch (r : Rule) (recent : List ℚ) (res : RuleResult) : RuleResult :=
  if "structuring_detection" ∈ r.conditions then
    if detect_structuring recent then
      { res with triggered := true, risk_contribution := r.risk_weight * 25, alert_required := true }
    else res
  else res

/-- The sanctioned country list of the cross_border branch. -/
def high_risk_countries : List String := ["AF", "IR", "KP", "SY"]

/-- The cross_border branch of apply_monitoring_rule: base contribution,
plus an extra contribution and an alert for a high risk beneficiary
country.  Note that the base case does not touch alert_required. -/
def cross_border_branch (t : Txn) (r : Rule) (res : RuleResult) : RuleResult :=
  if "cross_border" ∈ r.conditions ∧ t.cross_border then
    let res1 := { res with triggered := true, risk_contribution := r.risk_weight * 10 }
    if (match t.beneficiary_country with
        | some bc => decide (bc ∈ high_risk_countries)
        | none => false) then
      { res1 with risk_contribution := res1.risk_contribution + r.risk_weight * 20,
                  alert_required := true }
    else res1
  else res

/-- The cash_monitoring branch of apply_monitoring_rule. -/
def cash_branch (t : Txn) (r : Rule) (res : RuleResult) : RuleResult :=
  if "cash_monitoring" ∈ r.conditions ∧ t.cash_transaction then
    if threshold_get r.thresholds "cash_amount" 500000 ≤ t.amount then
      { res with triggered := true, risk_contribution := r.risk_weight * 15, alert_required := true }
    else res
  else res

/-- The customer_risk branch of apply_monitoring_rule.  The source uses
elif: a high risk category takes precedence and the PEP case is then not
examined.  Neither the high branch nor the fall through touches
alert_required. -/
def customer_risk_branch (c : Customer) (r : Rule) (res : RuleResult) : RuleResult :=
  if "customer_risk" ∈ r.conditions then
    if c.risk_category = "high" then
      { res with triggered := true, risk_contribution := r.risk_weight * 10 }
    else if c.pep_status then
      { res with triggered := true, risk_contribution := r.risk_weight * 15, alert_required := true }
    else res
  else res

/-- apply_monitoring_rule: the six condition branches run in source order,
each updating the shared result record (later branches overwrite the
risk_contribution field, as the source assigns rather than accumulates). -/
def apply_monitoring_rule (t : Txn) (c : Customer) (r : Rule) (recent : List ℚ) : RuleResult :=
  let res : RuleResult := { triggered := false, risk_contribution := 0, alert_required := false }
  let res := amount_branch t r res
  let res := velocity_branch r recent res
  let res := structuring_branch r recent res
  let res := cross_border_branch t r res
  let res := cash_branch t r res
  customer_risk_branch c r res

/-- The alert payload collected by perform_aml_monitoring for each rule
that requires an alert, and for the synthesised pattern alert. -/
structure AlertData where
  rule_id : Option Nat
  rule_name : String
  risk_score : ℚ
  severity : String
deriving Repr, DecidableEq

/-- The record returned by detect_transaction_patterns. -/
structure PatternResult where
  risk_contribution : ℚ
  flags : List String
  alerts : List AlertData
deriving Repr, DecidableEq

/-- amount % 1000000 == 0 on the rational model of a float amount. -/
def exact_million (a : ℚ) : Bool :=
  a.den == 1 && a.num % 1000000 == 0

/-- detect_transaction_patterns: unusual hour, exact million amount, and
the 10x over the 30 day average check.  avg30 is the AVG aggregate of the
30 day window; the Python truthiness test skips both a NULL and a zero
average, hence the non-zero guard. -/
def detect_transaction_patterns (t : Txn) (avg30 : Option ℚ) : PatternResult :=
  let timeHit : Bool := decide (t.hour < 6) || decide (22 < t.hour)
  let roundHit : Bool := exact_million t.amount && decide ((1000000 : ℚ) ≤ t.amount)
  let unusual : ℚ × List String × List AlertData :=
    match avg30 with
    | some avg =>
      if avg ≠ 0 ∧ avg * 10 < t.amount then
        (15, ["unusual_amount"],
         [{ rule_id := none, rule_name := "Unusual Amount Pattern", risk_score := 15,
            severity := "medium" }])
      else (0, [], [])
    | none => (0, [], [])
  { risk_contribution := (if timeHit then (5 : ℚ) else 0) + (if roundHit then (8 : ℚ) else 0)
      + unusual.1,
    flags := (if timeHit then ["unusual_time"] else []) ++ (if roundHit then ["round_amount"] else [])
      ++ unusual.2.1,
    alerts := unusual.2.2 }

/-- The record returned by perform_aml_monitoring.  risk_flags is the key
set of the dict: the source only ever stores True, under the key
rule_code.lower() for a triggered rule and under the fixed pattern keys. -/
structure MonitoringResult where
  risk_score : ℚ
  risk_flags : List String
  is_suspicious : Bool
  alerts_generated : List AlertData
deriving Repr, DecidableEq

/-- perform_aml_monitoring: apply every rule of the active snapshot in
order, accumulate score, flags and alert payloads, append the pattern
detectors, and clamp the score to [0, 100]. -/
def perform_aml_monitoring (t : Txn) (c : Customer) (rules : List Rule)
    (recent : List ℚ) (avg30 : Option ℚ) : MonitoringResult :=
  let step := fun (acc : ℚ × List String × List AlertData) (r : Rule) =>
    let res := apply_monitoring_rule t c r recent
    if res.triggered then
      (acc.1 + res.risk_contribution,
       acc.2.1 ++ [asciiLower r.rule_code],
       acc.2.2 ++ (if res.alert_required then
         [{ rule_id := some r.id, rule_name := r.rule_name,
            risk_score := res.risk_contribution, severity := r.severity_level }]
       else []))
    else acc
  let folded := rules.foldl step (0, [], [])
  let pat := detect_transaction_patterns t avg30
  let score := folded.1 + pat.risk_contribution
  let flags := folded.2.1 ++ pat.flags
  let alerts := folded.2.2 ++ pat.alerts
  let score := min 100 (max 0 score)
  { risk_score := score, risk_flags := flags,
    is_suspicious := decide ((60 : ℚ) ≤ score), alerts_generated := alerts }

/-- One audit row, restricted to the fields the claims mention. -/
structure AuditRecord where
  event_type : String
  action : String
  resource_type : String
  resource_id : Option Nat
deriving Repr, DecidableEq

/-- The observable outcome of process_transaction: the synced transaction
row, the created alert rows (id paired with payload), and the audit
records emitted during the call, in emission order. -/
structure ProcessResult where
  transaction : Txn
  alerts : List (Nat × AlertData)
  audit : List AuditRecord
deriving Repr, DecidableEq

/-- process_transaction: build the transaction row with its derived fields,
run monitoring, copy the monitoring outcome into the row (the four specific
flags read the fixed keys structuring, velocity, amount_threshold and
unusual_pattern of risk_flags), create one alert per collected payload
(each emitting an alert_generated audit record), and emit the final
transaction_processed audit record.  alertId supplies the ids of the
created alert rows in creation order. -/
def process_transaction (userId txnRowId : Nat) (transaction_id : String) (amount : ℚ)
    (transaction_method : String) (beneficiary_country : Option String) (hour : Nat)
    (c : Customer) (rules : List Rule) (recent : List ℚ) (avg30 : Option ℚ)
    (alertId : Nat → Nat) : ProcessResult :=
  let t0 : Txn :=
    { id := txnRowId, transaction_id := transaction_id, customer_id := c.id,
      amount := amount, transaction_method := transaction_method,
      beneficiary_country := beneficiary_country, hour := hour,
      cross_border := (match beneficiary_country with
        | some bc => decide (bc ≠ "NG")
        | none => false),
      cash_transaction := decide (asciiLower transaction_method ∈ ["cash", "atm_withdrawal"]),
      above_ctr_threshold := decide ((5000000 : ℚ) ≤ amount) }
  let m := perform_aml_monitoring t0 c rules recent avg30
  let t1 := { t0 with
    risk_score := m.risk_score, risk_flags := m.risk_flags,
    is_suspicious := m.is_suspicious, alert_count := m.alerts_generated.length,
    structuring_indicator := decide ("structuring" ∈ m.risk_flags),
    velocity_flag := decide ("velocity" ∈ m.risk_flags),
    amount_threshold_flag := decide ("amount_threshold" ∈ m.risk_flags),
    unusual_pattern_flag := decide ("unusual_pattern" ∈ m.risk_flags) }
  let created := m.alerts_generated.enum.map (fun p => (alertId p.1, p.2))
  let audit := created.map (fun p =>
      { event_type := "alert_generated", action := "create", resource_type := "alert",
        resource_id := some p.1 })
    ++ [{ event_type := "transaction_processed", action := "create",
          resource_type := "transaction", resource_id := some txnRowId }]
  { transaction := t1, alerts := created, audit := audit }

/-- The High Value Cash Transaction seed rule CBN-CASH-001
(risk_weight 1.5). -/
def cbn_cash_rule : Rule :=
  { id := 1, rule_code := "CBN-CASH-001", rule_name := "High Value Cash Transaction",
    conditions := ["amount_threshold", "cash_monitoring"],
    thresholds := [("amount", 5000000), ("cash_amount", 5000000)],
    risk_weight := 3/2, severity_level := "high" }

/-- The Rapid Transaction Velocity seed rule CBN-VEL-001 (risk_weight 1.2,
thresholds transaction_count_24h = 20 and amount_24h = 10,000,000). -/
def cbn_vel_rule : Rule :=
  { id := 2, rule_code := "CBN-VEL-001", rule_name := "Rapid Transaction Velocity",
    conditions := ["velocity_check", "structuring_detection"],
    thresholds := [("transaction_count_24h", 20), ("amount_24h", 10000000)],
    risk_weight := 6/5, severity_level := "medium" }

/-- The Cross-Border High Risk Country seed rule CBN-CB-001
(risk_weight 2.0). -/
def cbn_cb_rule : Rule :=
  { id := 3, rule_code := "CBN-CB-001", rule_name := "Cross-Border High Risk Country",
    conditions := ["cross_border", "high_risk_country"],
    thresholds := [("amount", 1000000)],
    risk_weight := 2, severity_level := "high" }

/-- The PEP Transaction Monitoring seed rule CBN-PEP-001 (risk_weight 1.8). -/
def cbn_pep_rule : Rule :=
  { id := 4, rule_code := "CBN-PEP-001", rule_name := "PEP Transaction Monitoring",
    conditions := ["customer_risk", "pep_monitoring"],
    thresholds := [("amount", 500000)],
    risk_weight := 9/5, severity_level := "high" }

/-- The four standard CBN seed rules, in seeding order. -/
def standard_rules : List Rule := [cbn_cash_rule, cbn_vel_rule, cbn_cb_rule, cbn_pep_rule]

/-- create_standard_cbn_rules: each seed whose rule_code is not yet taken is
created through create_aml_rule, which emits one rule_created audit record
carrying the new rule id; duplicate codes are skipped.  A final
standard_rules_created summary record is emitted with no resource_id. -/
def create_standard_cbn_rules (existingCodes : List String) : List Rule × List AuditRecord :=
  let created := standard_rules.filter (fun r => r.rule_code ∉ existingCodes)
  (created,
   created.map (fun r =>
     { event_type := "rule_created", action := "create", resource_type := "rule",
       resource_id := some r.id })
   ++ [{ event_type := "standard_rules_created", action := "create",
         resource_type := "rule", resource_id := none }])

/-- An alert row, restricted to the fields the case workflow reads and
writes. -/
structure AlertRow where
  id : Nat
  customer_id : Nat
  transaction_id : Option Nat
  risk_score : ℚ
  status : String := "open"
  case_id : Option Nat := none
  escalated_at : Option Nat := none
  resolution : Option String := none
  resolution_notes : Option String := none
  resolved_at : Option Nat := none
  resolved_by : Option Nat := none
deriving Repr, DecidableEq

/-- A case row, restricted to the fields the claims mention. -/
structure Case where
  id : Nat
  case_number : String
  customer_id : Nat
  related_customers : List Nat
  alert_ids : List Nat
  transaction_ids : List Nat
  risk_level : String
  status : String := "open"
  investigation_notes : String := ""
  closed_at : Option Nat := none
  closed_by : Option Nat := none
  closure_reason : Option String := none
  closure_notes : Option String := none
  decision : Option String := none
  actions_taken : List String := []
  updated_at : Nat := 0
  str_filed : Bool := false
  str_reference : Option String := none
  str_filed_date : Option Nat := none
deriving Repr, DecidableEq

/-- determine_case_risk_level: maximum alert risk score and alert count.
The Python max over the (non-empty) score list is modelled as a fold from
0, which agrees with it for the non-negative scores the system produces. -/
def determine_case_risk_level (alerts : List AlertRow) : String :=
  let maxScore := (alerts.map (fun a => a.risk_score)).foldl max 0
  if 80 ≤ maxScore ∨ 5 ≤ alerts.length then "critical"
  else if 60 ≤ maxScore ∨ 3 ≤ alerts.length then "high"
  else if 40 ≤ maxScore ∨ 2 ≤ alerts.length then "medium"
  else "low"

/-- The customer ids of the fetched alerts, in fetch order, duplicates
kept.  The source inserts these one by one into a Python set. -/
def collected_customers (alerts : List AlertRow) : List Nat :=
  alerts.map (fun a => a.customer_id)

/-- A list is a possible iteration order of the Python set holding exactly
the elements of cids: no duplicates, and the same members.  CPython set
iteration order is determined by element hashes and table history, not by
insertion order, so any such list can be what list(customer_ids) returns. -/
def is_set_order (setOrder cids : List Nat) : Prop :=
  setOrder.Nodup ∧ (∀ x ∈ setOrder, x ∈ cids) ∧ (∀ x ∈ cids, x ∈ setOrder)

instance (setOrder cids : List Nat) : Decidable (is_set_order setOrder cids) := by
  unfold is_set_order; infer_instance

/-- create_case_from_alerts: fetch every alert (error if one is missing),
collect customers into a set, take the first element of list(set) as the
primary customer and the rest as related customers, build the case, and
escalate every alert into it.  setOrder is the iteration order the Python
set exhibits on this run; the source indexes it at 0, which fails on an
empty alert list (modelled as an error). -/
def create_case_from_alerts (userId caseId : Nat) (case_number : String) (now : Nat)
    (store : List AlertRow) (alert_ids : List Nat) (setOrder : List Nat) :
    Except String (Case × List AlertRow) :=
  match alert_ids.mapM (fun i => store.find? (fun a => a.id == i)) with
  | none => .error "Alert not found"
  | some alerts =>
    match setOrder with
    | [] => .error "IndexError"
    | primary :: rest =>
      let c : Case :=
        { id := caseId, case_number := case_number, customer_id := primary,
          related_customers := rest, alert_ids := alert_ids,
          transaction_ids := alerts.filterMap (fun a => a.transaction_id),
          risk_level := determine_case_risk_level alerts,
          investigation_notes := "Case created from alerts. Investigation pending.",
          updated_at := now }
      let store1 := store.map (fun a =>
        if a.id ∈ alert_ids then
          { a with case_id := some caseId, status := "escalated", escalated_at := some now }
        else a)
      .ok (c, store1)

/-- The per-alert update of close_case: status closed, resolution fields
from the case decision and closure notes. -/
def close_alert_row (now userId : Nat) (decision notes : String) (a : AlertRow) : AlertRow :=
  { a with status := "closed", resolved_at := some now, resolved_by := some userId,
           resolution := some decision, resolution_notes := some notes }

/-- The line close_case appends to the investigation notes. -/
def closure_note_line (now : Nat) (decision closure_reason : String) : String :=
  "\n[" ++ toString now ++ "] Case closed. Decision: " ++ decision
    ++ ". Reason: " ++ closure_reason

/-- The state close_case operates on: the case row and the alert table. -/
structure CaseState where
  theCase : Case
  alerts : List AlertRow
deriving Repr, DecidableEq

/-- close_case: set the closure fields on the case, append the closure line
to the investigation notes, and update every alert whose id is linked by
the case. -/
def close_case (now userId : Nat) (closure_reason closure_notes decision : String)
    (actions_taken : List String) (st : CaseState) : CaseState :=
  let c := st.theCase
  let c :=
    { c with status := "closed", closed_at := some now, closed_by := some userId,
             closure_reason := some closure_reason, closure_notes := some closure_notes,
             decision := some decision, actions_taken := actions_taken, updated_at := now,
             investigation_notes :=
               c.investigation_notes ++ closure_note_line now decision closure_reason }
  { theCase := c,
    alerts := st.alerts.map (fun a =>
      if a.id ∈ c.alert_ids then close_alert_row now userId decision closure_notes a else a) }

/-- The NFIU export envelope produced by generate_nfiu_export_data,
flattened: report_header, subject_information, transaction_details,
narrative, suspicious_activity and compliance_officer sections. -/
structure NfiuExport where
  report_number : String
  report_type : String
  filing_institution : String
  filing_date : Option String
  period_from : String
  period_to : String
  subject_information : String
  transaction_count : Nat
  total_amount : ℚ
  currency : String
  narrative : String
  suspicious_activity_type : String
  activity_description : String
  prepared_by : String
  reviewed_by : Option String
  approved_by : Option String
deriving Repr, DecidableEq

/-- A report row, restricted to the fields filing and the NFIU export
read and write. -/
structure Report where
  id : Nat
  report_number : String
  report_type : String
  case_id : Option Nat
  customer_id : Nat
  transaction_ids : List Nat
  total_amount : ℚ
  currency : String := "NGN"
  narrative : String
  suspicious_activity_type : String
  activity_description : String
  subject_information : String
  incident_date_from : Nat
  incident_date_to : Nat
  prepared_by : Nat
  reviewed_by : Option Nat := none
  approved_by : Option Nat := none
  status : String := "draft"
  qa_approved : Bool := false
  filed : Bool := false
  filing_date : Option Nat := none
  filing_method : Option String := none
  filing_reference : Option String := none
  filed_by : Option Nat := none
  export_data : Option NfiuExport := none
  updated_at : Nat := 0
deriving Repr, DecidableEq

/-- generate_nfiu_export_data: pure projection of the report row into the
envelope; filing_date is rendered only when present. -/
def generate_nfiu_export_data (r : Report) : NfiuExport :=
  { report_number := r.report_number, report_type := r.report_type,
    filing_institution := "ProDetect Bank",
    filing_date := r.filing_date.map toString,
    period_from := toString r.incident_date_from,
    period_to := toString r.incident_date_to,
    subject_information := r.subject_information,
    transaction_count := r.transaction_ids.length,
    total_amount := r.total_amount, currency := r.currency,
    narrative := r.narrative,
    suspicious_activity_type := r.suspicious_activity_type,
    activity_description := r.activity_description,
    prepared_by := toString r.prepared_by,
    reviewed_by := r.reviewed_by.map toString,
    approved_by := r.approved_by.map toString }

/-- The mirror update applied to the related case when an STR is filed. -/
structure CaseMirror where
  case_id : Nat
  str_reference : String
  str_filed_date : Nat
deriving Repr, DecidableEq

/-- file_report_with_authorities on a fetched report row: reject an
unapproved report; otherwise capture the export envelope (computed before
the filing fields are assigned), stamp the filing fields and, for an STR
attached to a case, produce the mirror update for that case.  dateStr and
uuid8 are the YYYYMMDD rendering of today and the 8 character uuid prefix
used in the filing reference. -/
def file_report_with_authorities (userId now : Nat) (dateStr uuid8 filing_method : String)
    (r : Report) : Except String (Report × Option CaseMirror) :=
  if r.qa_approved then
    let export_data := generate_nfiu_export_data r
    let filing_reference := "NFIU-" ++ dateStr ++ "-" ++ uuid8
    let r1 :=
      { r with filed := true, filing_date := some now, filing_method := some filing_method,
               filing_reference := some filing_reference, filed_by := some userId,
               status := "filed", export_data := some export_data, updated_at := now }
    let mirror :=
      match r.case_id with
      | some cid =>
        if r.report_type = "STR" then
          some { case_id := cid, str_reference := filing_reference, str_filed_date := now }
        else none
      | none => none
    .ok (r1, mirror)
  else .error "Report must be approved before filing"

/-- The report row as persisted after a filing attempt: unchanged when the
attempt raised, the updated row when it succeeded. -/
def file_report_result (userId now : Nat) (dateStr uuid8 filing_method : String)
    (r : Report) : Report :=
  match file_report_with_authorities userId now dateStr uuid8 filing_method r with
  | .ok p => p.1
  | .error _ => r

/-! Concrete fixtures used by the witnesses and counterexamples. -/

/-- A customer that is simultaneously in the high risk category and a PEP. -/
def high_pep_customer : Customer := { id := 7, risk_category := "high", pep_status := true }

/-- A low risk, non PEP customer. -/
def low_customer : Customer := { id := 1, risk_category := "low", pep_status := false }

/-- A 2,000,000 NGN mobile transfer to a beneficiary in IR, as built by
process_transaction (cross border, not cash, below the CTR threshold). -/
def ir_txn : Txn :=
  { id := 41, transaction_id := "TXN-IR-1", customer_id := 7, amount := 2000000,
    transaction_method := "mobile", beneficiary_country := some "IR", hour := 12,
    cross_border := true, cash_transaction := false, above_ctr_threshold := false }

/-- The spec example structuring history: three prior transactions of
4,800,000, 4,900,000 and 4,950,000 within 24 hours. -/
def structuring_history : List ℚ := [4800000, 4900000, 4950000]

/-- Fifty prior transactions of 200,000 within 24 hours (the velocity
scenario of the spec). -/
def velocity_recent : List ℚ := List.replicate 50 200000

/-- The 51st transaction of the velocity scenario, processed over the
standard CBN rule snapshot. -/
def velocity_run : ProcessResult :=
  process_transaction 9 100 "TXN-51" 200000 "mobile" none 12 low_customer
    standard_rules velocity_recent (some 200000) (fun i => 200 + i)

/-! C1.  The spec claims that the customer_risk condition contributes
weight x 10 for a high risk category, an ADDITIONAL weight x 15 plus an
alert for a PEP, and that both apply together.  The source uses elif:
for a customer that is both, only the high risk arm runs, so the PEP
contribution and its alert are suppressed. -/

/-- C1 counterexample: evaluating the seeded CBN-PEP-001 rule against a
customer that is both high risk and a PEP yields only the weight x 10
contribution and no alert, contradicting the claimed additional
weight x 15 plus required alert. -/
theorem customer_risk_pep_suppressed :
    (apply_monitoring_rule ir_txn high_pep_customer cbn_pep_rule []).alert_required = false
    ∧ (apply_monitoring_rule ir_txn high_pep_customer cbn_pep_rule []).risk_contribution
        = cbn_pep_rule.risk_weight * 10
    ∧ cbn_pep_rule.risk_weight * 10
        ≠ cbn_pep_rule.risk_weight * 10 + cbn_pep_rule.risk_weight * 15 := by
  refine ⟨?_, ?_, ?_⟩ <;>
    simp +decide [apply_monitoring_rule, amount_branch, velocity_branch, structuring_branch,
      cross_border_branch, cash_branch, customer_risk_branch, check_transaction_velocity,
      detect_structuring, in_structuring_band, cbn_pep_rule, high_pep_customer, ir_txn] <;>
    norm_num

/-- C1 (amended): for a rule whose conditions enable customer_risk and no
other branch, a high risk category yields exactly weight x 10 with no
alert (the elif suppresses the PEP arm); only otherwise does pep_status
yield weight x 15 with a required alert.  Consequently the high risk PEP
customer with beneficiary country IR and amount 2,000,000 yields exactly
one alert (cross_border) over the standard rule snapshot, with risk score
at least 60. -/
theorem customer_risk_elif_amended :
    (∀ (t : Txn) (c : Customer) (r : Rule) (recent : List ℚ),
      "customer_risk" ∈ r.conditions →
      "amount_threshold" ∉ r.conditions → "velocity_check" ∉ r.conditions →
      "structuring_detection" ∉ r.conditions → "cross_border" ∉ r.conditions →
      "cash_monitoring" ∉ r.conditions →
      apply_monitoring_rule t c r recent =
        if c.risk_category = "high" then
          { triggered := true, risk_contribution := r.risk_weight * 10, alert_required := false }
        else if c.pep_status then
          { triggered := true, risk_contribution := r.risk_weight * 15, alert_required := true }
        else { triggered := false, risk_contribution := 0, alert_required := false })
    ∧ (perform_aml_monitoring ir_txn high_pep_customer standard_rules [] none).alerts_generated
        = [{ rule_id := some 3, rule_name := "Cross-Border High Risk Country",
             risk_score := 60, severity := "high" }]
    ∧ 60 ≤ (perform_aml_monitoring ir_txn high_pep_customer standard_rules [] none).risk_score := by
  refine ⟨?_, ?_, ?_⟩
  · intro t c r recent hc h1 h2 h3 h4 h5
    simp only [apply_monitoring_rule, amount_branch, velocity_branch, structuring_branch,
      cross_border_branch, cash_branch, customer_risk_branch, h1, h2, h3, h4, h5, hc,
      if_true, if_false, ite_true, ite_false, if_neg, if_pos]
    simp [h1, h2, h3, h4, h5, hc]
  · simp +decide [perform_aml_monitoring, standard_rules, apply_monitoring_rule, amount_branch,
      velocity_branch, structuring_branch, cross_border_branch, cash_branch, customer_risk_branch,
      check_transaction_velocity, detect_structuring, in_structuring_band, threshold_get,
      detect_transaction_patterns, exact_million, cbn_cash_rule, cbn_vel_rule, cbn_cb_rule,
      cbn_pep_rule, high_risk_countries, high_pep_customer, ir_txn] <;> norm_num
  · simp +decide [perform_aml_monitoring, standard_rules, apply_monitoring_rule, amount_branch,
      velocity_branch, structuring_branch, cross_border_branch, cash_branch, customer_risk_branch,
      check_transaction_velocity, detect_structuring, in_structuring_band, threshold_get,
      detect_transaction_patterns, exact_million, cbn_cash_rule, cbn_vel_rule, cbn_cb_rule,
      cbn_pep_rule, high_risk_countries, high_pep_customer, ir_txn] <;> norm_num

/-- C1 witness: the amended branch description instantiated at the seeded
CBN-PEP-001 rule and the high risk PEP customer. -/
theorem customer_risk_elif_amended_witness :
    apply_monitoring_rule ir_txn high_pep_customer cbn_pep_rule [] =
      { triggered := true, risk_contribution := cbn_pep_rule.risk_weight * 10,
        alert_required := false } := by
  have h := customer_risk_elif_amended.1 ir_txn high_pep_customer cbn_pep_rule []
    (by decide) (by decide) (by decide) (by decide) (by decide) (by decide)
  simpa [high_pep_customer] using h

/-! C7.  The structuring detector. -/

/-- The structuring condition exactly as the specification words it: at
least 3 transactions of the customer in the preceding 24 hours with amount
in the closed band [0.8 x 5,000,000, 0.99 x 5,000,000] whose sum exceeds
5,000,000. -/
def structuring_spec (recent : List ℚ) : Prop :=
  3 ≤ (recent.filter (fun a =>
        decide ((4/5 : ℚ) * 5000000 ≤ a) && decide (a ≤ (99/100 : ℚ) * 5000000))).length
  ∧ 5000000 < (recent.filter (fun a =>
        decide ((4/5 : ℚ) * 5000000 ≤ a) && decide (a ≤ (99/100 : ℚ) * 5000000))).sum

/-- C7: detect_structuring triggers exactly when the spec condition holds;
a trigger sets contribution weight x 25 and requires an alert; and the
three example transactions of 4,800,000, 4,900,000 and 4,950,000 within
24 hours trigger it. -/
theorem structuring_detection_correct :
    (∀ recent : List ℚ, detect_structuring recent = true ↔ structuring_spec recent)
    ∧ (∀ (r : Rule) (recent : List ℚ) (res : RuleResult),
        "structuring_detection" ∈ r.conditions → detect_structuring recent = true →
        structuring_branch r recent res =
          { triggered := true, risk_contribution := r.risk_weight * 25, alert_required := true })
    ∧ detect_structuring structuring_history = true := by
  have hband : (fun a : ℚ =>
      decide ((4/5 : ℚ) * 5000000 ≤ a) && decide (a ≤ (99/100 : ℚ) * 5000000))
      = in_structuring_band := by
    funext a
    have h1 : (4/5 : ℚ) * 5000000 = 4000000 := by norm_num
    have h2 : (99/100 : ℚ) * 5000000 = 4950000 := by norm_num
    simp [in_structuring_band, h1, h2]
  refine ⟨?_, ?_, ?_⟩
  · intro recent
    simp [detect_structuring, structuring_spec, hband]
  · intro r recent res hc hs
    simp [structuring_branch, hc, hs]
  · have hb : ∀ a : ℚ, 4000000 ≤ a → a ≤ 4950000 → in_structuring_band a = true := by
      intro a h1 h2
      simp [in_structuring_band, h1, h2]
    have e : List.filter in_structuring_band [4800000, 4900000, 4950000]
        = [(4800000 : ℚ), 4900000, 4950000] := by
      simp [hb 4800000 (by norm_num) (by norm_num),
        hb 4900000 (by norm_num) (by norm_num), hb 4950000 (by norm_num) (by norm_num)]
    simp [detect_structuring, structuring_history, e]
    norm_num

/-- C7 witness: the structuring branch of the seeded CBN-VEL-001 rule on
the example history sets contribution 1.2 x 25 = 30 and requires an
alert. -/
theorem structuring_detection_correct_witness :
    structuring_branch cbn_vel_rule structuring_history
        { triggered := false, risk_contribution := 0, alert_required := false } =
      { triggered := true, risk_contribution := cbn_vel_rule.risk_weight * 25,
        alert_required := true } :=
  structuring_detection_correct.2.1 cbn_vel_rule structuring_history
    { triggered := false, risk_contribution := 0, alert_required := false }
    (by decide) structuring_detection_correct.2.2

/-! C10.  The velocity trigger reads only the fixed constants 50 and
10,000,000; the thresholds map of the rule is never consulted. -/

/-- C10: the velocity branch (and, for rules whose enabled conditions do
not include the two threshold reading branches, the whole rule evaluation)
is invariant under replacing the thresholds map; the trigger is exactly
count at least 50 or total at least 10,000,000 over the trailing 24 hours;
and the seeded CBN-VEL-001 rule, whose thresholds map announces
transaction_count_24h = 20, does not trigger on 20 transactions of
100,000. -/
theorem velocity_thresholds_ignored :
    (∀ (r : Rule) (th : List (String × ℚ)) (recent : List ℚ) (res : RuleResult),
      velocity_branch { r with thresholds := th } recent res = velocity_branch r recent res)
    ∧ (∀ (t : Txn) (c : Customer) (r : Rule) (th : List (String × ℚ)) (recent : List ℚ),
        "amount_threshold" ∉ r.conditions → "cash_monitoring" ∉ r.conditions →
        apply_monitoring_rule t c { r with thresholds := th } recent
          = apply_monitoring_rule t c r recent)
    ∧ (∀ recent : List ℚ,
        check_transaction_velocity recent = true ↔ 50 ≤ recent.length ∨ (10000000 : ℚ) ≤ recent.sum)
    ∧ (apply_monitoring_rule ir_txn low_customer cbn_vel_rule (List.replicate 20 100000)).triggered
        = false := by
  refine ⟨?_, ?_, ?_, ?_⟩
  · intro r th recent res
    rfl
  · intro t c r th recent h1 h2
    simp [apply_monitoring_rule, amount_branch, velocity_branch, structuring_branch,
      cross_border_branch, cash_branch, customer_risk_branch, h1, h2]
  · intro recent
    simp [check_transaction_velocity]
  · have hsum : (List.replicate 20 (100000 : ℚ)).sum = 2000000 := by
      simp [List.sum_replicate]
      norm_num
    have hfil : (List.replicate 20 (100000 : ℚ)).filter in_structuring_band = [] := by
      rw [List.filter_eq_nil]
      intro a ha
      have : a = (100000 : ℚ) := List.eq_of_mem_replicate ha
      subst this
      simp [in_structuring_band]
      norm_num
    simp +decide [apply_monitoring_rule, amount_branch, velocity_branch, structuring_branch,
      cross_border_branch, cash_branch, customer_risk_branch, check_transaction_velocity,
      detect_structuring, hsum, hfil, cbn_vel_rule, ir_txn, low_customer]
    norm_num

/-- C10 witness: the whole CBN-VEL-001 evaluation is unchanged when its
thresholds map is replaced by one demanding a count of only 5. -/
theorem velocity_thresholds_ignored_witness :
    apply_monitoring_rule ir_txn low_customer
        { cbn_vel_rule with thresholds := [("transaction_count_24h", 5)] } velocity_recent
      = apply_monitoring_rule ir_txn low_customer cbn_vel_rule velocity_recent :=
  velocity_thresholds_ignored.2.1 ir_txn low_customer cbn_vel_rule
    [("transaction_count_24h", 5)] velocity_recent (by decide) (by decide)

/-! C2.  process_transaction derives velocity_flag and
structuring_indicator from the fixed risk_flags keys velocity and
structuring, but perform_aml_monitoring stores the flags of a triggered
rule under rule_code.lower() (cbn-vel-001 for the seeded velocity rule),
so the keys never match and the flags stay false even when the checks
fire. -/

lemma velocity_recent_length : velocity_recent.length = 50 := by
  simp [velocity_recent]

lemma velocity_recent_sum : velocity_recent.sum = 10000000 := by
  simp [velocity_recent, List.sum_replicate]
  norm_num

lemma velocity_recent_band : velocity_recent.filter in_structuring_band = [] := by
  rw [List.filter_eq_nil]
  intro a ha
  have : a = (200000 : ℚ) := by simpa [velocity_recent] using ha
  subst this
  simp [in_structuring_band]
  norm_num

/-- C2: processing the 51st transaction of 200,000 for a customer with 50
prior transactions of 200,000 in the last 24 hours, over the standard CBN
rule snapshot, generates the velocity alert of rule CBN-VEL-001 and
records the risk flag under the key cbn-vel-001, yet the persisted
transaction has velocity_flag = false (and structuring_indicator = false),
because the fixed keys read at persist time never match the keys written
by monitoring. -/
theorem velocity_flag_key_mismatch :
    velocity_run.transaction.velocity_flag = false
    ∧ velocity_run.transaction.structuring_indicator = false
    ∧ velocity_run.transaction.risk_flags = ["cbn-vel-001"]
    ∧ velocity_run.alerts =
        [(200, { rule_id := some 2, rule_name := "Rapid Transaction Velocity",
                 risk_score := 18, severity := "medium" })]
    ∧ velocity_run.transaction.alert_count = 1 := by
  refine ⟨?_, ?_, ?_, ?_, ?_⟩ <;>
    simp +decide [velocity_run, process_transaction, perform_aml_monitoring, standard_rules,
      apply_monitoring_rule, amount_branch, velocity_branch, structuring_branch,
      cross_border_branch, cash_branch, customer_risk_branch, check_transaction_velocity,
      detect_structuring, threshold_get, detect_transaction_patterns, exact_million,
      velocity_recent_length, velocity_recent_sum, velocity_recent_band,
      cbn_cash_rule, cbn_vel_rule, cbn_cb_rule, cbn_pep_rule, low_customer, asciiLower] <;>
    norm_num

/-! C8.  Audit emission: process_transaction emits one audit record per
created alert plus the final transaction_processed record, and
create_standard_cbn_rules emits one record per created rule plus a
summary record carrying no resource_id. -/

/-- C8 counterexample: the velocity scenario run of process_transaction
emits two audit records in a single invocation (alert_generated for the
created alert, then transaction_processed), refuting the claim that every
state changing operation emits exactly one audit record. -/
theorem audit_not_exactly_one :
    velocity_run.audit.length = 2 ∧ velocity_run.audit.length ≠ 1 := by
  constructor <;>
    simp +decide [velocity_run, process_transaction, perform_aml_monitoring, standard_rules,
      apply_monitoring_rule, amount_branch, velocity_branch, structuring_branch,
      cross_border_branch, cash_branch, customer_risk_branch, check_transaction_velocity,
      detect_structuring, threshold_get, detect_transaction_patterns, exact_million,
      velocity_recent_length, velocity_recent_sum, velocity_recent_band,
      cbn_cash_rule, cbn_vel_rule, cbn_cb_rule, cbn_pep_rule, low_customer, asciiLower] <;>
    norm_num

/-- C8 (amended): process_transaction emits one alert_generated audit
record per created alert, each carrying the id of that alert, followed by
exactly one transaction_processed record carrying the id of the
transaction row, so an invocation emits 1 + number of alerts records; and
create_standard_cbn_rules emits one rule_created record per created rule
plus a trailing subject-less summary record. -/
theorem audit_records_per_operation :
    (∀ (userId txnRowId : Nat) (tid : String) (amount : ℚ) (method : String)
       (bc : Option String) (hour : Nat) (c : Customer) (rules : List Rule)
       (recent : List ℚ) (avg30 : Option ℚ) (alertId : Nat → Nat),
      (process_transaction userId txnRowId tid amount method bc hour c rules recent avg30 alertId).audit
        = (process_transaction userId txnRowId tid amount method bc hour c rules recent avg30 alertId).alerts.map
            (fun p => { event_type := "alert_generated", action := "create",
                        resource_type := "alert", resource_id := some p.1 })
          ++ [{ event_type := "transaction_processed", action := "create",
                resource_type := "transaction", resource_id := some txnRowId }]
      ∧ (process_transaction userId txnRowId tid amount method bc hour c rules recent avg30 alertId).audit.length
          = (process_transaction userId txnRowId tid amount method bc hour c rules recent avg30 alertId).alerts.length + 1)
    ∧ (∀ existingCodes : List String,
        (create_standard_cbn_rules existingCodes).2
          = (create_standard_cbn_rules existingCodes).1.map
              (fun r => { event_type := "rule_created", action := "create",
                          resource_type := "rule", resource_id := some r.id })
            ++ [{ event_type := "standard_rules_created", action := "create",
                  resource_type := "rule", resource_id := none }]
        ∧ (create_standard_cbn_rules existingCodes).2.length
            = (create_standard_cbn_rules existingCodes).1.length + 1) := by
  constructor
  · intro userId txnRowId tid amount method bc hour c rules recent avg30 alertId
    refine ⟨rfl, ?_⟩
    simp [process_transaction]
  · intro existingCodes
    refine ⟨rfl, ?_⟩
    simp [create_standard_cbn_rules]

/-! C3 and C4.  close_case. -/

/-- An open alert linked to the sample case. -/
def sample_alert1 : AlertRow :=
  { id := 11, customer_id := 10, transaction_id := some 21, risk_score := 45 }

/-- A second open alert linked to the sample case. -/
def sample_alert2 : AlertRow :=
  { id := 12, customer_id := 20, transaction_id := none, risk_score := 70 }

/-- A case linking the two sample alerts. -/
def sample_case : Case :=
  { id := 5, case_number := "CASE-202501-0001", customer_id := 10,
    related_customers := [20], alert_ids := [11, 12], transaction_ids := [21],
    risk_level := "high", investigation_notes := "Case created from alerts. Investigation pending." }

/-- The sample case together with its alert table. -/
def sample_case_state : CaseState :=
  { theCase := sample_case, alerts := [sample_alert1, sample_alert2] }

set_option maxRecDepth 8192 in
/-- C3 counterexample: re-closing the sample case with the identical
closure reason, notes, decision, actions, user and timestamp does not
reproduce the state of the first closure: the closure line is appended to
the investigation notes a second time. -/
theorem close_case_not_idempotent :
    close_case 100 3 "resolved" "ok" "file_str" ["str"]
        (close_case 100 3 "resolved" "ok" "file_str" ["str"] sample_case_state)
      ≠ close_case 100 3 "resolved" "ok" "file_str" ["str"] sample_case_state := by
  intro h
  have hlen := congrArg (fun st => st.theCase.investigation_notes.length) h
  simp +decide [close_case, sample_case_state, sample_case, closure_note_line] at hlen

/-- C3 (amended): re-closing a case with the same arguments and timestamp
reproduces the state of the first closure on every field except the
investigation notes, which gain one more copy of the closure line; in
particular the linked alert rows are exactly those of the first closure. -/
theorem close_case_idempotent_mod_notes (now u : Nat) (reason notes dec : String)
    (acts : List String) (st : CaseState) :
    close_case now u reason notes dec acts (close_case now u reason notes dec acts st) =
      { theCase :=
          { (close_case now u reason notes dec acts st).theCase with
            investigation_notes :=
              (close_case now u reason notes dec acts st).theCase.investigation_notes
                ++ closure_note_line now dec reason },
        alerts := (close_case now u reason notes dec acts st).alerts } := by
  simp only [close_case, List.map_map]
  refine congrArg₂ CaseState.mk rfl ?_
  apply List.map_congr_left
  intro a _
  by_cases hmem : a.id ∈ st.theCase.alert_ids
  · simp [hmem, close_alert_row]
  · simp [hmem, close_alert_row]

/-- C4: after close_case, every alert row whose id is linked by the case
is closed with resolution equal to the case decision, and its resolver and
resolution time are set. -/
theorem close_case_closes_linked_alerts (now u : Nat) (reason notes dec : String)
    (acts : List String) (st : CaseState) (a : AlertRow)
    (ha : a ∈ (close_case now u reason notes dec acts st).alerts)
    (hid : a.id ∈ st.theCase.alert_ids) :
    a.status = "closed" ∧ a.resolution = some dec ∧ a.resolved_at = some now
      ∧ a.resolved_by = some u ∧ a.resolution_notes = some notes := by
  simp only [close_case, List.mem_map] at ha
  obtain ⟨b, _, hb⟩ := ha
  by_cases hbid : b.id ∈ st.theCase.alert_ids
  · rw [if_pos hbid] at hb
    subst hb
    simp [close_alert_row]
  · rw [if_neg hbid] at hb
    subst hb
    exact absurd hid hbid

/-- C4 witness: in the closed sample case state, the row of linked alert
11 is closed with resolution file_str, resolved at time 100 by user 3. -/
theorem close_case_closes_linked_alerts_witness :
    (close_alert_row 100 3 "file_str" "ok" sample_alert1).status = "closed"
    ∧ (close_alert_row 100 3 "file_str" "ok" sample_alert1).resolution = some "file_str"
    ∧ (close_alert_row 100 3 "file_str" "ok" sample_alert1).resolved_at = some 100
    ∧ (close_alert_row 100 3 "file_str" "ok" sample_alert1).resolved_by = some 3
    ∧ (close_alert_row 100 3 "file_str" "ok" sample_alert1).resolution_notes = some "ok" :=
  close_case_closes_linked_alerts 100 3 "resolved" "ok" "file_str" ["str"]
    sample_case_state (close_alert_row 100 3 "file_str" "ok" sample_alert1)
    (by simp [close_case, sample_case_state, sample_case, sample_alert1])
    (by simp [close_alert_row, sample_case_state, sample_case, sample_alert1])

/-! C5.  create_case_from_alerts and the primary customer.  The source
collects the customer ids of the alerts into a Python set and indexes its
list at 0.  CPython set iteration order is determined by the hashes of the
elements (random looking uuid values), not by insertion order, so any
duplicate free enumeration of the collected customers is a possible run. -/

/-- An alert of customer 10 (given first). -/
def alert_a : AlertRow := { id := 1, customer_id := 10, transaction_id := some 31, risk_score := 50 }

/-- An alert of customer 20 (given second). -/
def alert_b : AlertRow := { id := 2, customer_id := 20, transaction_id := some 32, risk_score := 65 }

/-- The alert table holding the two alerts. -/
def two_alert_store : List AlertRow := [alert_a, alert_b]

/-- C5 counterexample: with the two alerts given in the order
customer 10 then customer 20, the set enumeration [20, 10] is a legitimate
iteration order of the collected customer set, and under it the created
case has primary customer 20 and related customers [10] - not the first
distinct customer 10 with related [20] that the claim promises. -/
theorem create_case_set_order_dependent :
    collected_customers [alert_a, alert_b] = [10, 20]
    ∧ is_set_order [20, 10] (collected_customers [alert_a, alert_b])
    ∧ (create_case_from_alerts 3 99 "CASE-202501-0002" 100 two_alert_store [1, 2]
        [20, 10]).toOption.map (fun pr => pr.1.customer_id) = some 20
    ∧ (create_case_from_alerts 3 99 "CASE-202501-0002" 100 two_alert_store [1, 2]
        [20, 10]).toOption.map (fun pr => pr.1.related_customers) = some [10]
    ∧ (20 : Nat) ≠ 10 := by
  refine ⟨?_, ?_, ?_, ?_, ?_⟩ <;>
    simp +decide [collected_customers, is_set_order, create_case_from_alerts, two_alert_store,
      alert_a, alert_b, List.mapM, List.mapM.loop, determine_case_risk_level]

/-- C5 (amended): whatever iteration order the customer set exhibits, the
created case has as primary customer one of the customers of the given
alerts, every other distinct customer of the alerts appears in
related_customers, and the primary customer is not repeated there. -/
theorem create_case_primary_among_customers (userId caseId : Nat) (cn : String) (now : Nat)
    (store : List AlertRow) (ids : List Nat) (setOrder : List Nat) (alerts : List AlertRow)
    (hfetch : ids.mapM (fun i => store.find? (fun a => a.id == i)) = some alerts)
    (horder : is_set_order setOrder (collected_customers alerts))
    (hne : setOrder ≠ []) :
    ∃ c st, create_case_from_alerts userId caseId cn now store ids setOrder = .ok (c, st)
      ∧ c.customer_id ∈ collected_customers alerts
      ∧ (∀ x ∈ collected_customers alerts, x ≠ c.customer_id → x ∈ c.related_customers)
      ∧ c.customer_id ∉ c.related_customers := by
  obtain ⟨p, rest, rfl⟩ : ∃ p rest, setOrder = p :: rest := by
    cases setOrder with
    | nil => exact absurd rfl hne
    | cons p rest => exact ⟨p, rest, rfl⟩
  refine ⟨{ id := caseId, case_number := cn, customer_id := p, related_customers := rest,
            alert_ids := ids, transaction_ids := alerts.filterMap (fun a => a.transaction_id),
            risk_level := determine_case_risk_level alerts,
            investigation_notes := "Case created from alerts. Investigation pending.",
            updated_at := now },
          store.map (fun a =>
            if a.id ∈ ids then
              { a with case_id := some caseId, status := "escalated", escalated_at := some now }
            else a), ?_, ?_, ?_, ?_⟩
  · simp only [create_case_from_alerts]
    rw [hfetch]
  · exact horder.2.1 p (List.mem_cons_self p rest)
  · intro x hx hxp
    have hmem : x ∈ p :: rest := horder.2.2 x hx
    rcases List.mem_cons.mp hmem with h | h
    · exact absurd h hxp
    · exact h
  · exact (List.nodup_cons.mp horder.1).1

/-- C5 witness: the amended statement instantiated at the two alert store
with the enumeration [10, 20]. -/
theorem create_case_primary_among_customers_witness :
    ∃ c st, create_case_from_alerts 3 99 "CASE-202501-0002" 100 two_alert_store [1, 2]
          [10, 20] = .ok (c, st)
      ∧ c.customer_id ∈ collected_customers [alert_a, alert_b]
      ∧ (∀ x ∈ collected_customers [alert_a, alert_b], x ≠ c.customer_id → x ∈ c.related_customers)
      ∧ c.customer_id ∉ c.related_customers :=
  create_case_primary_among_customers 3 99 "CASE-202501-0002" 100 two_alert_store [1, 2]
    [10, 20] [alert_a, alert_b]
    (by simp +decide [two_alert_store, alert_a, alert_b, List.mapM, List.mapM.loop])
    (by simp +decide [is_set_order, collected_customers, alert_a, alert_b])
    (by simp)

/-! C6 and C9.  file_report_with_authorities and the NFIU export. -/

/-- An STR report that has not been QA approved. -/
def str_report_draft : Report :=
  { id := 70, report_number := "STR-202501-0001", report_type := "STR", case_id := some 5,
    customer_id := 10, transaction_ids := [21, 22], total_amount := 9700000,
    narrative := "narrative", suspicious_activity_type := "structuring",
    activity_description := "structured deposits", subject_information := "subject snapshot",
    incident_date_from := 10, incident_date_to := 20, prepared_by := 3 }

/-- The same STR after an approving review. -/
def str_report_approved : Report :=
  { str_report_draft with qa_approved := true, status := "approved", reviewed_by := some 4 }

/-- C6: filing fails (and leaves the report unchanged) exactly on reports
that are not QA approved; a successful filing sets filed, status filed, a
filing reference of the NFIU-date-uuid shape, the filing date and the
filer, and mirrors reference and date to the case of an STR; and every
report a successful filing produces satisfies filed implies qa_approved
and a non null filing_reference. -/
theorem file_report_not_approved_guard (userId now : Nat) (dateStr uuid8 m : String)
    (r : Report) :
    (r.qa_approved = false →
      file_report_with_authorities userId now dateStr uuid8 m r
          = .error "Report must be approved before filing"
      ∧ file_report_result userId now dateStr uuid8 m r = r)
    ∧ (r.qa_approved = true →
      ∃ r1 mir, file_report_with_authorities userId now dateStr uuid8 m r = .ok (r1, mir)
        ∧ r1.filed = true ∧ r1.status = "filed" ∧ r1.qa_approved = true
        ∧ r1.filing_reference = some ("NFIU-" ++ dateStr ++ "-" ++ uuid8)
        ∧ r1.filing_date = some now ∧ r1.filed_by = some userId
        ∧ (∀ cid, r.case_id = some cid → r.report_type = "STR" →
            mir = some { case_id := cid, str_reference := "NFIU-" ++ dateStr ++ "-" ++ uuid8,
                         str_filed_date := now }))
    ∧ (∀ r1 mir, file_report_with_authorities userId now dateStr uuid8 m r = .ok (r1, mir) →
        r1.filed = true → r1.qa_approved = true ∧ r1.filing_reference ≠ none) := by
  refine ⟨?_, ?_, ?_⟩
  · intro h
    constructor
    · simp [file_report_with_authorities, h]
    · simp [file_report_result, file_report_with_authorities, h]
  · intro h
    refine ⟨{ r with
                filed := true, filing_date := some now, filing_method := some m,
                filing_reference := some ("NFIU-" ++ dateStr ++ "-" ++ uuid8),
                filed_by := some userId, status := "filed",
                export_data := some (generate_nfiu_export_data r), updated_at := now },
            (match r.case_id with
             | some cid =>
               if r.report_type = "STR" then
                 some { case_id := cid, str_reference := "NFIU-" ++ dateStr ++ "-" ++ uuid8,
                        str_filed_date := now }
               else none
             | none => none), ?_, ?_, ?_, ?_, ?_, ?_, ?_, ?_⟩
    · simp [file_report_with_authorities, h]
    · rfl
    · rfl
    · simpa using h
    · rfl
    · rfl
    · rfl
    · intro cid hcid htyp
      simp [hcid, htyp]
  · intro r1 mir hok _
    by_cases h : r.qa_approved
    · simp only [file_report_with_authorities, h, if_true, Except.ok.injEq] at hok
      obtain ⟨h1, -⟩ := Prod.mk.injEq .. ▸ hok
      subst h1
      exact ⟨by simpa using h, by simp⟩
    · simp [file_report_with_authorities, h] at hok

/-- C6 witness: the guard at the concrete draft (error, report unchanged)
and at the concrete approved STR (filed with the expected reference). -/
theorem file_report_not_approved_guard_witness :
    (file_report_with_authorities 3 100 "20250101" "ab12cd34" "electronic" str_report_draft
        = .error "Report must be approved before filing"
      ∧ file_report_result 3 100 "20250101" "ab12cd34" "electronic" str_report_draft
        = str_report_draft)
    ∧ ∃ r1 mir,
        file_report_with_authorities 3 100 "20250101" "ab12cd34" "electronic" str_report_approved
            = .ok (r1, mir)
        ∧ r1.filed = true ∧ r1.status = "filed" ∧ r1.qa_approved = true
        ∧ r1.filing_reference = some ("NFIU-" ++ "20250101" ++ "-" ++ "ab12cd34")
        ∧ r1.filing_date = some 100 ∧ r1.filed_by = some 3
        ∧ (∀ cid, str_report_approved.case_id = some cid →
            str_report_approved.report_type = "STR" →
            mir = some { case_id := cid, str_reference := "NFIU-" ++ "20250101" ++ "-" ++ "ab12cd34",
                         str_filed_date := 100 }) :=
  ⟨(file_report_not_approved_guard 3 100 "20250101" "ab12cd34" "electronic" str_report_draft).1
      rfl,
   (file_report_not_approved_guard 3 100 "20250101" "ab12cd34" "electronic" str_report_approved).2.1
      rfl⟩

/-- C9 counterexample: filing the approved STR stores an export envelope
whose report_header.filing_date is still null (it was generated before the
filing date was assigned), while regenerating the envelope from the filed
report yields the actual filing date, so the stored export_data does not
round trip to the regenerated envelope. -/
theorem export_data_not_roundtrip :
    (file_report_result 3 100 "20250101" "ab12cd34" "electronic" str_report_approved).export_data
        = some (generate_nfiu_export_data str_report_approved)
    ∧ (generate_nfiu_export_data str_report_approved).filing_date = none
    ∧ (generate_nfiu_export_data
        (file_report_result 3 100 "20250101" "ab12cd34" "electronic" str_report_approved)).filing_date
        = some (toString (100 : Nat))
    ∧ (file_report_result 3 100 "20250101" "ab12cd34" "electronic" str_report_approved).export_data
        ≠ some (generate_nfiu_export_data
            (file_report_result 3 100 "20250101" "ab12cd34" "electronic" str_report_approved)) := by
  refine ⟨?_, ?_, ?_, ?_⟩
  · simp [file_report_result, file_report_with_authorities, str_report_approved, str_report_draft]
  · simp [generate_nfiu_export_data, str_report_approved, str_report_draft]
  · simp [file_report_result, file_report_with_authorities, generate_nfiu_export_data,
      str_report_approved, str_report_draft]
  · intro h
    have h2 := congrArg (fun o => o.map (fun e => e.filing_date)) h
    simp [file_report_result, file_report_with_authorities, generate_nfiu_export_data,
      str_report_approved, str_report_draft] at h2

/-- C9 (amended): for a QA approved report, the envelope stored at filing
time equals the envelope generated from the pre-filing report (whose
filing_date entry is the pre-filing one), and any later regeneration from
the filed report differs from it exactly by carrying the actual filing
date in report_header.filing_date; all other envelope fields agree. -/
theorem export_regeneration_differs_only_in_filing_date (userId now : Nat)
    (dateStr uuid8 m : String) (r : Report) (r1 : Report) (mir : Option CaseMirror)
    (hok : file_report_with_authorities userId now dateStr uuid8 m r = .ok (r1, mir)) :
    r1.export_data = some (generate_nfiu_export_data r)
    ∧ generate_nfiu_export_data r1
        = { generate_nfiu_export_data r with filing_date := some (toString now) } := by
  by_cases h : r.qa_approved
  · simp only [file_report_with_authorities, h, if_true, Except.ok.injEq] at hok
    obtain ⟨h1, -⟩ := Prod.mk.injEq .. ▸ hok
    subst h1
    constructor
    · rfl
    · rfl
  · simp [file_report_with_authorities, h] at hok

/-- C9 witness: the amended statement at the concrete approved STR. -/
theorem export_regeneration_differs_only_in_filing_date_witness :
    ∃ r1 mir,
      file_report_with_authorities 3 100 "20250101" "ab12cd34" "electronic" str_report_approved
          = .ok (r1, mir)
      ∧ r1.export_data = some (generate_nfiu_export_data str_report_approved)
      ∧ generate_nfiu_export_data r1
          = { generate_nfiu_export_data str_report_approved with
              filing_date := some (toString (100 : Nat)) } := by
  refine ⟨_, _, rfl, ?_⟩
  exact export_regeneration_differs_only_in_filing_date 3 100 "20250101" "ab12cd34" "electronic"
    str_report_approved _ _ rfl

end ProDetect
